import Mathlib

set_option maxRecDepth 100000

/-!
Shallow embedding of src/lib/new/tox.js (js-toxcore-c), the FFI binding
around the native toxcore engine.  The wrapper's own logic is translated
into Lean functions; each call across the engine boundary is represented
by an explicit record of the call made, and the engine's observable
behaviour (boolean result, out-of-band status code) is a parameter.
JavaScript exceptions are modelled with `Except JsError`.
-/

instance {ε α : Type} [DecidableEq ε] [DecidableEq α] : DecidableEq (Except ε α)
  | .error e1, .error e2 =>
      if h : e1 = e2 then .isTrue (by rw [h]) else .isFalse (fun he => h (by injection he))
  | .error _, .ok _ => .isFalse (fun he => by injection he)
  | .ok _, .error _ => .isFalse (fun he => by injection he)
  | .ok a, .ok b =>
      if h : a = b then .isTrue (by rw [h]) else .isFalse (fun he => h (by injection he))

/-- Modelled from the spec: the status-code constants live on the consts
module object (lib/new/consts.js, which is not under src/).  The claims
only ever compare a status against the OK code of its family, so OK is 0
as in the native enums. -/
def TOX_ERR_NEW_OK : Nat := 0

/-- Modelled from the spec: bootstrap OK status code from the consts
module (not under src/). -/
def TOX_ERR_BOOTSTRAP_OK : Nat := 0

/-- Modelled from the spec: proxy-type "none" constant from the consts
module (not under src/); line 77 of tox.js reads it as
`consts.TOX_PROXY_TYPE_NONE`. -/
def TOX_PROXY_TYPE_NONE : Nat := 0

/-- JavaScript exception values thrown by the wrapper. -/
inductive JsError where
  /-- a plain `new Error(msg)` -/
  | jsError (msg : String)
  /-- reading an identifier that is declared neither in the module nor on
  the global object -/
  | referenceError (name : String)
  /-- thrown by the buffertools hex decoder on invalid input -/
  | typeError (msg : String)
deriving DecidableEq, Repr

/-- The ToxOptions ref-struct (tox.js lines 19-27): `ipv6enabled: uint8,
udp_disabled: uint8, proxy_type: uint8, proxy_address: char[256],
proxy_port: uint16, start_port: uint16, end_port: uint16`.
`new ToxOptions()` allocates a raw (uninitialized) buffer, so every field
is modelled as `Option`: `none` until the wrapper assigns it. -/
structure ToxOptions where
  ipv6enabled : Option Nat := none
  udp_disabled : Option Nat := none
  proxy_type : Option Nat := none
  proxy_address : Option (List Nat) := none
  proxy_port : Option Nat := none
  start_port : Option Nat := none
  end_port : Option Nat := none
deriving DecidableEq, Repr

/-- A structured proxy object as consumed by `_setProxyToToxOptions`:
each field is checked with `_.isString` / `_.isNumber` before use, so a
field is `none` when absent or of the wrong dynamic type. -/
structure ProxyObj where
  type : Option String := none
  address : Option String := none
  port : Option Int := none
deriving DecidableEq, Repr

/-- The `proxy` entry of the options object passed to the Tox
constructor: absent (or of a type that is neither string nor object),
a free-form proxy string, or a structured object. -/
inductive ProxyOpt where
  | absent
  | str (s : String)
  | obj (p : ProxyObj)
deriving DecidableEq, Repr

/-- The options object accepted by the Tox constructor.  `ipv6` and
`udp` may hold any JavaScript value; the code only distinguishes
`undefined` (here `none`) from a defined value, which it collapses with
`!!` to its truthiness (here `some b`). -/
structure ToxOpts where
  ipv6 : Option Bool := none
  udp : Option Bool := none
  proxy : ProxyOpt := .absent
deriving DecidableEq, Repr

/-- Bytes of a JavaScript string as Buffer sees them (UTF-8). -/
def strBytes (s : String) : List Nat :=
  s.toUTF8.toList.map (fun b => b.toNat)

/-- Node `buffer.write(string, offset, maxLength)` at offset 0 as used on
line 116 of tox.js: writes at most `buf.length - 1` bytes of the string
over the front of the buffer, leaving the rest of the buffer unchanged. -/
def bufWrite (s : String) (buf : List Nat) : List Nat :=
  let bs := (strBytes s).take (buf.length - 1)
  bs ++ buf.drop bs.length

/-- Modelled from the spec: `util.parseProxy` (lib/new/util.js is not
under src/) parses a free-form proxy string of the form
`scheme://host:port` into a structured `{type, address, port}` object;
an unparseable string yields no object (`undefined`). -/
def parseProxy (s : String) : Option ProxyObj :=
  match s.splitOn "://" with
  | [scheme, rest] =>
    match rest.splitOn ":" with
    | [host, portStr] =>
      match portStr.toNat? with
      | some p => some { type := some scheme, address := some host, port := some (Int.ofNat p) }
      | none => none
    | _ => none
  | _ => none

/-- Reading a bare identifier in tox.js that the module never declares
and that does not exist on the Node global object: JavaScript throws a
ReferenceError.  Lines 107-113 read `TOX_PROXY_NONE`,
`TOX_PROXY_TYPE_HTTP`, `TOX_PROXY_TYPE_SOCKS5` and `TOX_PROXY_TYPE_NONE`
bare, while the module only ever declares the consts module object
(whose members are accessed as `consts.…`, e.g. line 77). -/
def jsGlobalLookup (name : String) : Except JsError Nat :=
  .error (.referenceError name)

/-- Lowercasing for the case-insensitive regex tests. -/
def strLower (s : String) : String :=
  String.mk (s.data.map Char.toLower)

/-- The test `/^http$/i.test(t)` (line 109). -/
def reHttpTest (t : String) : Bool :=
  strLower t = "http"

/-- The test `/^socks5?$/i.test(t)` (line 110). -/
def reSocks5Test (t : String) : Bool :=
  strLower t = "socks" || strLower t = "socks5"

/-- Lines 98-103 of tox.js: the local `proxy` after the string case has
been parsed — a structured object, or `undefined` (`none`) when absent
or unparseable (`_.isObject` then fails). -/
def resolveProxyOpt : ProxyOpt → Option ProxyObj
  | .absent => none
  | .str s => parseProxy s
  | .obj p => some p

/-- The `_.isObject(proxy)` branch of `_setProxyToToxOptions` (tox.js
lines 105-124).  Its first statement, line 107
`options.proxy_type = TOX_PROXY_NONE;`, evaluates the bare undeclared
identifier `TOX_PROXY_NONE` and therefore throws a ReferenceError
before any field is assigned; lines 108-123 are transliterated
faithfully below but are unreachable, and every constant they read is
also a bare undeclared identifier. -/
def setProxyObjBranch (p : ProxyObj) (options : ToxOptions) : Except JsError ToxOptions := do
    let mut o := options
    let v0 ← jsGlobalLookup "TOX_PROXY_NONE"
    o := { o with proxy_type := some v0 }
    if let some t := p.type then
      if reHttpTest t then
        let v1 ← jsGlobalLookup "TOX_PROXY_TYPE_HTTP"
        o := { o with proxy_type := some v1 }
      else if reSocks5Test t then
        let v2 ← jsGlobalLookup "TOX_PROXY_TYPE_SOCKS5"
        o := { o with proxy_type := some v2 }
    let v3 ← jsGlobalLookup "TOX_PROXY_TYPE_NONE"
    if o.proxy_type ≠ some v3 then
      if let some addr := p.address then
        o := { o with proxy_address := some (bufWrite addr (o.proxy_address.getD (List.replicate 256 0))) }
      if let some prt := p.port then
        o := { o with proxy_port := some ((prt % 65536).toNat) }
    return o

/-- `Tox.prototype._setProxyToToxOptions` (tox.js lines 97-125): parse
a string proxy, then run the object branch when the result (or the
directly supplied value) is an object; otherwise leave the options
untouched. -/
def setProxyToToxOptions (opts : ToxOpts) (options : ToxOptions) : Except JsError ToxOptions :=
  match resolveProxyOpt opts.proxy with
  | none => .ok options
  | some p => setProxyObjBranch p options

/-- `Tox.prototype._createToxOptions` (tox.js lines 70-89): allocate a
fresh ToxOptions, zero the proxy-address buffer, set proxy type/port to
the "none" defaults, default `ipv6` to false and `udp` to true, store
them as 0/1 flags (`udp_disabled` is the inverse of `udp`), then apply
the proxy settings.  `start_port` and `end_port` are never assigned. -/
def createToxOptions (opts : ToxOpts) : Except JsError ToxOptions :=
  let toxopts : ToxOptions := {}
  let toxopts := { toxopts with
    proxy_address := some (List.replicate 256 0),
    proxy_type := some TOX_PROXY_TYPE_NONE,
    proxy_port := some 0 }
  let ipv6 := opts.ipv6.getD false
  let udp := opts.udp.getD true
  let toxopts := { toxopts with
    ipv6enabled := some (if ipv6 then 1 else 0),
    udp_disabled := some (if udp then 0 else 1) }
  setProxyToToxOptions opts toxopts

/-- The result of `_createToxOptions` on an options object with no
proxy: all proxy fields defaulted, flags stored, port range untouched. -/
def defaultBuildResult : ToxOptions :=
  { ipv6enabled := some 0
    udp_disabled := some 0
    proxy_type := some TOX_PROXY_TYPE_NONE
    proxy_address := some (List.replicate 256 0)
    proxy_port := some 0
    start_port := none
    end_port := none }

/-- `Tox.prototype._checkToxNewError` (tox.js lines 156-160): throws
`new Error('tox_new error: ' + val)` exactly when the status differs
from `TOX_ERR_NEW_OK`. -/
def checkToxNewError (val : Nat) : Except JsError Unit :=
  if val ≠ TOX_ERR_NEW_OK then
    .error (.jsError ("tox_new error: " ++ toString val))
  else
    .ok ()

/-- `Tox.prototype._initNew` (tox.js lines 133-147): calls `tox_new`,
stores the returned handle, then checks the status the engine wrote
through the error pointer.  `engineHandle` and `status` are what the
engine produced. -/
def initNew (engineHandle : Nat) (status : Nat) : Except JsError Nat :=
  match checkToxNewError status with
  | .error e => .error e
  | .ok _ => .ok engineHandle

/-- Value of a single hex digit, or `none` for any other character. -/
def hexDigitVal (c : Char) : Option Nat :=
  let n := c.toNat
  if 48 ≤ n ∧ n ≤ 57 then some (n - 48)
  else if 97 ≤ n ∧ n ≤ 102 then some (n - 87)
  else if 65 ≤ n ∧ n ≤ 70 then some (n - 55)
  else none

/-- Decode consecutive pairs of hex digits into bytes; `none` on an odd
number of characters or an invalid digit. -/
def hexPairs : List Char → Option (List Nat)
  | [] => some []
  | _ :: [] => none
  | a :: b :: rest => do
    let ha ← hexDigitVal a
    let hb ← hexDigitVal b
    let tl ← hexPairs rest
    pure ((16 * ha + hb) :: tl)

/-- The buffertools `fromHex` conversion (buffertools is an external npm
dependency): decodes a hex string into a byte buffer, throwing on
invalid input (modelled as `none`). -/
def toxFromHex (s : String) : Option (List Nat) :=
  hexPairs s.data

/-- The public key argument to bootstrap: a raw byte Buffer or a hex
string (tox.js lines 205-207 and 236-238 check `_.isString`). -/
inductive PubKeyArg where
  | buf (b : List Nat)
  | str (s : String)
deriving DecidableEq, Repr

/-- Key marshalling shared by both bootstrap variants: a string is hex
decoded with `(new Buffer(publicKey)).fromHex()`; a Buffer is passed
through unchanged. -/
def marshalPublicKey : PubKeyArg → Except JsError (List Nat)
  | .buf b => .ok b
  | .str s =>
    match toxFromHex s with
    | some b => .ok b
    | none => .error (.typeError "invalid hex string")

/-- `Tox.prototype._getToxBootstrapError` (tox.js lines 169-173):
returns `new Error('tox_bootstrap: ' + val)` when the status differs
from `TOX_ERR_BOOTSTRAP_OK`, otherwise `undefined` (`none`). -/
def getToxBootstrapError (val : Nat) : Option JsError :=
  if val ≠ TOX_ERR_BOOTSTRAP_OK then
    some (.jsError ("tox_bootstrap: " ++ toString val))
  else
    none

/-- The message of the inconsistent-result error created at tox.js
lines 216 and 246. -/
def inconsistentMsg : String :=
  "tox_bootstrap returned false but no error set at eptr"

/-- The arguments of one `tox_bootstrap` call across the engine
boundary. -/
structure BootstrapCall where
  handle : Nat
  address : List Nat
  port : Nat
  publicKey : List Nat
deriving DecidableEq, Repr

/-- Observable behaviour of the engine on one `tox_bootstrap` call: the
boolean it returns and the status it writes through the error pointer. -/
structure BootstrapEngine where
  res : Bool
  status : Nat
deriving DecidableEq, Repr

/-- State of one Tox instance as the source keeps it: the opaque engine
handle (`this._handle`) and the interval-timer field (`this._interval`,
`undefined` until `start` stores a timer).  The source has no
closed/killed flag; `kill` leaves every field intact. -/
structure ToxState where
  handle : Nat
  interval : Option Nat := none
deriving DecidableEq, Repr

/-- `Tox.prototype.bootstrapSync` (tox.js lines 231-248): build the
null-terminated address buffer, hex-decode a string key, call
`tox_bootstrap`, throw the bootstrap error when the status is non-OK,
then throw the inconsistent-result error when the engine returned false.
Returns the engine call made (if any) and the outcome. -/
def bootstrapSyncRun (s : ToxState) (address : String) (port : Nat)
    (publicKey : PubKeyArg) (eng : BootstrapEngine) :
    Option BootstrapCall × Except JsError Unit :=
  let addrBuf := strBytes address ++ [0]
  match marshalPublicKey publicKey with
  | .error e => (none, .error e)
  | .ok key =>
    let call : BootstrapCall :=
      { handle := s.handle, address := addrBuf, port := port, publicKey := key }
    match getToxBootstrapError eng.status with
    | some terr => (some call, .error terr)
    | none =>
      if eng.res = false then
        (some call, .error (.jsError inconsistentMsg))
      else
        (some call, .ok ())

/-- `Tox.prototype.bootstrap` (tox.js lines 199-223), the asynchronous
variant: same marshalling, then `tox_bootstrap.async`; the callback
receives the ffi error `ffiErr` and the engine's boolean, prefers the
ffi error, otherwise the mapped bootstrap error, otherwise the
inconsistent-result error when the boolean is `false`.  Returns the
engine call made (if any) and the error handed to the user callback. -/
def bootstrapRun (s : ToxState) (address : String) (port : Nat)
    (publicKey : PubKeyArg) (eng : BootstrapEngine) (ffiErr : Option JsError) :
    Option BootstrapCall × Option JsError :=
  let addrBuf := strBytes address ++ [0]
  match marshalPublicKey publicKey with
  | .error e => (none, some e)
  | .ok key =>
    let call : BootstrapCall :=
      { handle := s.handle, address := addrBuf, port := port, publicKey := key }
    let terr := getToxBootstrapError eng.status
    let err :=
      match ffiErr with
      | some e => some e
      | none => terr
    let err :=
      if err.isNone ∧ eng.res = false then some (.jsError inconsistentMsg) else err
    (some call, err)

/-- One call made into the engine library. -/
inductive EngineCall where
  | tox_kill (h : Nat)
  | tox_iterate (h : Nat)
  | tox_iteration_interval (h : Nat)
deriving DecidableEq, Repr

/-- `Tox.prototype.killSync` (tox.js lines 323-325): calls `tox_kill`
on the stored handle.  No field of the instance is changed and no
closed flag exists, so the state comes back untouched. -/
def killSync (s : ToxState) : ToxState × EngineCall :=
  (s, .tox_kill s.handle)

/-- `Tox.prototype.iterateSync` (tox.js lines 308-310): unconditionally
calls `tox_iterate` on the stored handle; no liveness check is made and
no error can be raised by the wrapper itself. -/
def iterateSync (s : ToxState) : Except JsError EngineCall :=
  .ok (.tox_iterate s.handle)

/-- `Tox.prototype.iterationIntervalSync` (tox.js lines 293-295):
unconditionally calls `tox_iteration_interval` on the stored handle. -/
def iterationIntervalSync (s : ToxState) : Except JsError EngineCall :=
  .ok (.tox_iteration_interval s.handle)

/-- `Tox.prototype.isStarted` (tox.js lines 277-279): `!!this._interval`;
`setInterval` returns a truthy timer object, so this is exactly whether
a timer is stored. -/
def isStarted (s : ToxState) : Bool :=
  s.interval.isSome

/-- The `wait` argument to `start` as a JavaScript value: omitted
(`undefined`), a value that coerces to NaN (e.g. a non-numeric string),
or a number. -/
inductive JSWait where
  | undef
  | nan
  | num (v : Int)
deriving DecidableEq, Repr

/-- `isNaN(wait)` — `undefined` and non-numeric values coerce to NaN. -/
def jsIsNaN : JSWait → Bool
  | .undef => true
  | .nan => true
  | .num _ => false

/-- `wait <= 0` for a numeric wait (for NaN the comparison is false, but
`start` short-circuits on `isNaN` first). -/
def jsLeZero : JSWait → Bool
  | .num v => v ≤ 0
  | _ => false

/-- `Tox.prototype.start` (tox.js lines 333-338): when no loop is
running, replace a NaN or non-positive wait by the 40ms default and
store the timer returned by `setInterval`; when a loop is already
running, do nothing.  `newTimer` is the timer id `setInterval` would
return; the second component is the period passed to `setInterval`
(`none` when `setInterval` is not called). -/
def toxStart (s : ToxState) (w : JSWait) (newTimer : Nat) : ToxState × Option Int :=
  if isStarted s then
    (s, none)
  else
    let wait : Int := if jsIsNaN w || jsLeZero w then 40 else
      match w with
      | .num v => v
      | _ => 40
    ({ s with interval := some newTimer }, some wait)

/-- `Tox.prototype.stop` (tox.js lines 343-348): when a timer is stored,
clear it (second component: the timer id passed to `clearInterval`) and
reset the field to `undefined`; otherwise do nothing. -/
def toxStop (s : ToxState) : ToxState × Option Nat :=
  match s.interval with
  | some t => ({ s with interval := none }, some t)
  | none => (s, none)

/-- Observable behaviour of the engine for the save-data protocol: the
size it reports through `tox_get_savedata_size` and the bytes it writes
through `tox_get_savedata` (a function of the buffer index). -/
structure SaveDataEngine where
  savedataSize : Nat
  savedataByte : Nat → Nat

/-- `new Buffer(n)` allocated for the save data. -/
def bufferAlloc (n : Nat) : List Nat :=
  List.replicate n 0

/-- `tox_get_savedata(handle, buffer)`: the engine fills the supplied
buffer in place, so its length is unchanged. -/
def engineFillSavedata (e : SaveDataEngine) (buf : List Nat) : List Nat :=
  buf.mapIdx (fun i _ => e.savedataByte i)

/-- Modelled from the spec: `getSaveData` itself is not under src/ (only
the FFI declarations `tox_get_savedata` and `tox_get_savedata_size` at
tox.js lines 265-266 are).  Two-step protocol per the spec: query the
required size, allocate a buffer of exactly that size, have the engine
fill it, and return it. -/
def getSaveData (e : SaveDataEngine) : List Nat :=
  let size := e.savedataSize
  engineFillSavedata e (bufferAlloc size)

/-- Helper: `_setProxyToToxOptions` can only return normally with the
options record it was given, because the object branch throws at its
first statement (line 107) before assigning anything. -/
lemma setProxyObjBranch_throws (p : ProxyObj) (options : ToxOptions) :
    setProxyObjBranch p options = .error (.referenceError "TOX_PROXY_NONE") := rfl

lemma setProxy_ok_eq (opts : ToxOpts) (options o : ToxOptions)
    (h : setProxyToToxOptions opts options = .ok o) : o = options := by
  unfold setProxyToToxOptions at h
  rcases hr : resolveProxyOpt opts.proxy with _ | p
  · simp only [hr] at h
    injection h with h2
    exact h2.symm
  · simp only [hr, setProxyObjBranch_throws] at h
    exact Except.noConfusion h

/-- Helper: a successful build yields exactly the defaulted record with
the caller's ipv6/udp truthiness folded in. -/
lemma createToxOptions_ok (opts : ToxOpts) (o : ToxOptions)
    (h : createToxOptions opts = .ok o) :
    o = { ipv6enabled := some (if opts.ipv6.getD false then 1 else 0)
          udp_disabled := some (if opts.udp.getD true then 0 else 1)
          proxy_type := some TOX_PROXY_TYPE_NONE
          proxy_address := some (List.replicate 256 0)
          proxy_port := some 0
          start_port := none
          end_port := none } := by
  unfold createToxOptions at h
  exact setProxy_ok_eq _ _ _ h

/-- Claim C6: handle creation throws the `tox_new error` carrying the
engine's status code exactly when the creation status differs from
`TOX_ERR_NEW_OK`; on an OK status construction completes and yields the
engine's handle without any fault. -/
theorem initNew_error_iff_status_not_ok (h v : Nat) :
    (v ≠ TOX_ERR_NEW_OK ↔
      initNew h v = .error (.jsError ("tox_new error: " ++ toString v))) ∧
    (v = TOX_ERR_NEW_OK → initNew h v = .ok h) := by
  refine ⟨⟨fun hv => ?_, fun he hv => ?_⟩, fun hv => ?_⟩
  · simp [initNew, checkToxNewError, hv]
  · simp [initNew, checkToxNewError, hv] at he
  · simp [initNew, checkToxNewError, hv]

/-- Witness for the creation-error contract at statuses 2 and 0. -/
theorem initNew_error_iff_status_not_ok_witness :
    initNew 7 2 = .error (.jsError "tox_new error: 2") ∧ initNew 7 0 = .ok 7 :=
  ⟨(initNew_error_iff_status_not_ok 7 2).1.mp (by decide),
   (initNew_error_iff_status_not_ok 7 0).2 rfl⟩

/-- Claim C1: for both bootstrap variants, an engine result of `true`
with an OK status succeeds; `false` with an OK status yields the
inconsistent-result error; a non-OK status yields the bootstrap error
carrying that code regardless of the boolean. -/
theorem bootstrap_error_contract (s : ToxState) (addr : String) (port : Nat)
    (pk : PubKeyArg) (key : List Nat) (res : Bool) (status : Nat)
    (hm : marshalPublicKey pk = .ok key) :
    (status = TOX_ERR_BOOTSTRAP_OK → res = true →
      (bootstrapSyncRun s addr port pk ⟨res, status⟩).2 = .ok () ∧
      (bootstrapRun s addr port pk ⟨res, status⟩ none).2 = none) ∧
    (status = TOX_ERR_BOOTSTRAP_OK → res = false →
      (bootstrapSyncRun s addr port pk ⟨res, status⟩).2 = .error (.jsError inconsistentMsg) ∧
      (bootstrapRun s addr port pk ⟨res, status⟩ none).2 = some (.jsError inconsistentMsg)) ∧
    (status ≠ TOX_ERR_BOOTSTRAP_OK →
      (bootstrapSyncRun s addr port pk ⟨res, status⟩).2
        = .error (.jsError ("tox_bootstrap: " ++ toString status)) ∧
      (bootstrapRun s addr port pk ⟨res, status⟩ none).2
        = some (.jsError ("tox_bootstrap: " ++ toString status))) := by
  refine ⟨fun h1 h2 => ?_, fun h1 h2 => ?_, fun h1 => ?_⟩ <;>
    simp [bootstrapSyncRun, bootstrapRun, getToxBootstrapError, hm, h1] <;>
    simp [h2]

/-- Witness for the bootstrap contract: a non-OK status maps to the
bootstrap error, and true-with-OK succeeds on both variants. -/
theorem bootstrap_error_contract_witness :
    (bootstrapSyncRun { handle := 7 } "node" 33445 (.buf [1]) ⟨true, 1⟩).2
      = .error (.jsError "tox_bootstrap: 1") ∧
    (bootstrapRun { handle := 7 } "node" 33445 (.buf [1]) ⟨true, 0⟩ none).2 = none := by
  have h1 := (bootstrap_error_contract { handle := 7 } "node" 33445 (.buf [1]) [1] true 1 rfl).2.2
    (by decide)
  have h2 := (bootstrap_error_contract { handle := 7 } "node" 33445 (.buf [1]) [1] true 0 rfl).1
    rfl rfl
  exact ⟨h1.1, h2.2⟩

/-- Claim C9: in both bootstrap variants, a hex-string public key is
decoded to raw bytes before crossing the engine boundary, and a raw
Buffer key is passed through unchanged. -/
theorem bootstrap_publicKey_marshalling (s : ToxState) (addr : String) (port : Nat)
    (b : List Nat) (hx : String) (k : List Nat) (eng : BootstrapEngine)
    (hhex : toxFromHex hx = some k) :
    ((bootstrapSyncRun s addr port (.buf b) eng).1).map BootstrapCall.publicKey = some b ∧
    ((bootstrapRun s addr port (.buf b) eng none).1).map BootstrapCall.publicKey = some b ∧
    ((bootstrapSyncRun s addr port (.str hx) eng).1).map BootstrapCall.publicKey = some k ∧
    ((bootstrapRun s addr port (.str hx) eng none).1).map BootstrapCall.publicKey = some k := by
  cases hgt : getToxBootstrapError eng.status <;>
    cases hr : eng.res <;>
      simp [bootstrapSyncRun, bootstrapRun, marshalPublicKey, hhex, hgt, hr]

/-- Witness for public-key marshalling: the hex string `"00ff"` crosses
the boundary as the bytes `[0, 255]`. -/
theorem bootstrap_publicKey_marshalling_witness :
    ((bootstrapSyncRun { handle := 7 } "n" 1 (.str "00ff") { res := true, status := 0 }).1).map
      BootstrapCall.publicKey = some [0, 255] :=
  (bootstrap_publicKey_marshalling { handle := 7 } "n" 1 [1] "00ff" [0, 255]
    { res := true, status := 0 } (by decide)).2.2.1

/-- Claim C7: starting while already running changes nothing and creates
no second timer; `isStarted` is true after a `start` and false after a
subsequent `stop`; `stop` while not running changes nothing. -/
theorem start_stop_isStarted_contract (s : ToxState) (w : JSWait) (t : Nat) :
    (isStarted s = true → toxStart s w t = (s, none)) ∧
    isStarted (toxStart s w t).1 = true ∧
    isStarted (toxStop (toxStart s w t).1).1 = false ∧
    (isStarted s = false → toxStop s = (s, none)) := by
  obtain ⟨h, i⟩ := s
  cases i <;> simp [isStarted, toxStart, toxStop]

/-- Witness for the iteration-driver contract on concrete states. -/
theorem start_stop_isStarted_contract_witness :
    toxStart { handle := 7, interval := some 3 } .undef 9
      = ({ handle := 7, interval := some 3 }, none) ∧
    isStarted (toxStart { handle := 7 } .undef 9).1 = true ∧
    toxStop { handle := 7 } = ({ handle := 7 }, none) :=
  ⟨(start_stop_isStarted_contract { handle := 7, interval := some 3 } .undef 9).1 rfl,
   (start_stop_isStarted_contract { handle := 7 } .undef 9).2.1,
   (start_stop_isStarted_contract { handle := 7 } .undef 9).2.2.2 rfl⟩

/-- Claim C10: when no loop is running and the wait argument is NaN
after coercion (including omitted) or non-positive, `start` schedules
the loop with the 40ms default period. -/
theorem start_default_wait_forty (s : ToxState) (w : JSWait) (t : Nat)
    (hs : isStarted s = false) (hw : jsIsNaN w = true ∨ jsLeZero w = true) :
    (toxStart s w t).2 = some 40 := by
  rcases hw with h | h <;> simp [toxStart, hs, h]

/-- Witness: an omitted wait and a negative wait both schedule 40ms. -/
theorem start_default_wait_forty_witness :
    (toxStart { handle := 7 } .undef 1).2 = some 40 ∧
    (toxStart { handle := 7 } (.num (-5)) 1).2 = some 40 :=
  ⟨start_default_wait_forty { handle := 7 } .undef 1 rfl (Or.inl rfl),
   start_default_wait_forty { handle := 7 } (.num (-5)) 1 rfl (Or.inr (by decide))⟩

/-- Claim C8: the save-data operation follows the two-step protocol and
returns a buffer whose length equals the size the engine reported when
queried. -/
theorem getSaveData_length_eq_queried_size (e : SaveDataEngine) :
    (getSaveData e).length = e.savedataSize := by
  simp [getSaveData, engineFillSavedata, bufferAlloc]

/-- Claim C2 (code bug): building with a structured proxy object whose
type is unrecognized throws a ReferenceError instead of yielding a
no-proxy configuration, because line 107 reads the undeclared bare
identifier `TOX_PROXY_NONE` (everywhere else the constant is accessed
as `consts.TOX_PROXY_TYPE_NONE`, e.g. line 77). -/
theorem proxy_object_build_throws :
    createToxOptions { proxy := .obj { type := some "ftp", address := some "x", port := some 1 } }
      = .error (.referenceError "TOX_PROXY_NONE") := by
  decide

/-- Claim C3 (code bug): `kill` leaves the instance state untouched (no
closed flag exists in the source), and subsequent operations still call
straight into the engine with the same handle; no use-after-close error
is ever raised. -/
theorem kill_no_guard_engine_still_called :
    (killSync { handle := 7 }).1 = { handle := 7 } ∧
    iterateSync (killSync { handle := 7 }).1 = .ok (.tox_iterate 7) ∧
    iterationIntervalSync (killSync { handle := 7 }).1 = .ok (.tox_iteration_interval 7) ∧
    ((bootstrapSyncRun (killSync { handle := 7 }).1 "n" 1 (.buf [1])
        { res := true, status := 0 }).1).map BootstrapCall.handle = some 7 := by
  decide

/-- Claim C4 counterexample: the configuration built from empty options
leaves `start_port` and `end_port` unassigned (the builder never writes
them and the ref-struct allocation is uninitialized), so the built
configuration does not carry a zeroed no-custom-port-range field pair. -/
theorem createToxOptions_default_port_range_unset :
    createToxOptions {} = .ok defaultBuildResult ∧
    defaultBuildResult.start_port ≠ some 0 ∧
    defaultBuildResult.end_port ≠ some 0 := by
  decide

/-- Claim C4 (amended): with ipv6, udp and proxy omitted the build
succeeds with ipv6enabled 0, udp_disabled 0, proxy type none, a zeroed
proxy-address buffer, proxy port 0, and the start/end port fields left
unassigned; moreover on every successful build `udp_disabled` is the
boolean inverse of the caller's (defaulted) udp option. -/
theorem createToxOptions_defaults_amended (opts : ToxOpts)
    (h6 : opts.ipv6 = none) (hu : opts.udp = none) (hp : opts.proxy = .absent) :
    createToxOptions opts = .ok defaultBuildResult ∧
    (∀ opts2 o, createToxOptions opts2 = .ok o →
      o.udp_disabled = some (if opts2.udp.getD true then 0 else 1)) := by
  obtain ⟨i6, u, p⟩ := opts
  simp only at h6 hu hp
  subst h6 hu hp
  refine ⟨by decide, fun opts2 o hok => ?_⟩
  rw [createToxOptions_ok opts2 o hok]

/-- Witness for the amended defaults at the empty options object. -/
theorem createToxOptions_defaults_amended_witness :
    createToxOptions {} = .ok defaultBuildResult ∧
    defaultBuildResult.udp_disabled = some 0 := by
  have h := createToxOptions_defaults_amended {} rfl rfl rfl
  exact ⟨h.1, by decide⟩

/-- Claim C5: the proxy-address store writes at most 255 bytes into the
256-byte buffer — truncating the string, never growing the buffer — and
every byte from index 255 on (in particular the final byte, which the
builder pre-fills with 0) is left unchanged, so the final byte is always
a null terminator; every successfully built configuration carries the
zero-filled 256-byte address buffer. -/
theorem proxy_address_write_truncates (s : String) (buf : List Nat)
    (hlen : buf.length = 256) :
    (bufWrite s buf).length = 256 ∧
    ((strBytes s).take (buf.length - 1)).length ≤ 255 ∧
    (∀ i, 255 ≤ i → (bufWrite s buf)[i]? = buf[i]?) ∧
    (bufWrite s (List.replicate 256 0))[255]? = some 0 ∧
    (∀ opts o, createToxOptions opts = .ok o →
      o.proxy_address = some (List.replicate 256 0)) := by
  have htk : ∀ (l : List Nat), (l.take (buf.length - 1)).length ≤ 255 := by
    intro l
    simp only [List.length_take, hlen]
    omega
  have hidx : ∀ i, 255 ≤ i → (bufWrite s buf)[i]? = buf[i]? := by
    intro i hi
    have hb := htk (strBytes s)
    unfold bufWrite
    rw [List.getElem?_append_right (by omega), List.getElem?_drop]
    congr 1
    omega
  refine ⟨?_, htk _, hidx, ?_, fun opts o hok => ?_⟩
  · have hb := htk (strBytes s)
    simp only [bufWrite, List.length_append, List.length_take, List.length_drop, hlen]
    omega
  · have hrep : (List.replicate 256 (0 : Nat)).length = 256 := by simp
    have hb : ((strBytes s).take ((List.replicate 256 (0 : Nat)).length - 1)).length ≤ 255 := by
      simp only [List.length_take, hrep]
      omega
    unfold bufWrite
    rw [List.getElem?_append_right (by omega), List.getElem?_drop]
    exact List.getElem?_replicate_of_lt (by omega)
  · rw [createToxOptions_ok opts o hok]

/-- Witness for address truncation at a 300-character address written
into the zero-filled default buffer. -/
theorem proxy_address_write_truncates_witness :
    (bufWrite (String.join (List.replicate 30 "aaaaaaaaaa")) (List.replicate 256 0)).length = 256 ∧
    (bufWrite (String.join (List.replicate 30 "aaaaaaaaaa")) (List.replicate 256 0))[255]?
      = some 0 := by
  have h := proxy_address_write_truncates (String.join (List.replicate 30 "aaaaaaaaaa"))
    (List.replicate 256 0) (by simp)
  exact ⟨h.1, h.2.2.2.1⟩
